import Mathlib

/-!
Verification of the ENS reminder service core against its source.

The development shallowly embeds three source modules:
* `mock-database` (`MockDatabaseService`): an in-memory relational stand-in
  with three tables, a select query surface with single-shot filters, and
  insert/update execution.
* `mock-cron` (`MockCronService`): per-job running-flag guarded execution.
* `reminder-service` (`ReminderService`): the evaluation pass
  (`processReminders`) with per-(reminder, interval) delivery deduplication
  via the `sent_reminders` table, and message rendering tiers.

Machine timestamps are embedded as `Int` milliseconds since epoch; the
ISO-string timestamps the source stores are represented by the same instants
(string formatting is injective on instants, so deduplication and
comparison behaviour is unchanged).  JS number arithmetic on realistic
timestamp magnitudes is exact, so `Math.ceil` of the day quotient is the
exact rational ceiling, embedded with integer floor division.
-/

namespace EnsReminder

/-! ## Mock database: values, rows, filters (`mock-database.ts`) -/

/-- A JS value stored in a row column: the repository stores numbers and
strings in its tables.  Strict equality (`===`) is constructor-and-payload
equality, as in JS for these two types. -/
inductive DbValue where
  | int (i : Int) : DbValue
  | str (s : String) : DbValue
deriving DecidableEq, Repr

/-- JS `<` restricted to same-typed operands: numeric on numbers,
lexicographic on strings.  Heterogeneous comparisons (which JS coerces) are
never exercised by the repository, and are embedded as `false`. -/
def DbValue.jsLt : DbValue → DbValue → Bool
  | .int a, .int b => a < b
  | .str a, .str b => a < b
  | _, _ => false

/-- JS `<=` on same-typed operands; on strings JS defines `a <= b` as the
negation of `b < a`. -/
def DbValue.jsLe : DbValue → DbValue → Bool
  | .int a, .int b => a ≤ b
  | .str a, .str b => !(b < a)
  | _, _ => false

/-- A row is a JS object: a finite map from column names to values,
embedded as an association list (first binding wins, as produced by object
spreads after normalisation). -/
abbrev DbRow := List (String × DbValue)

/-- `record[column]`: `none` embeds JS `undefined` for a missing column. -/
def getField (r : DbRow) (c : String) : Option DbValue :=
  (r.find? (fun p => p.1 == c)).map (fun p => p.2)

/-- Functional update of one column, as performed by a later key in a JS
object literal `{...record, c: v}`: replaces an existing binding in place,
otherwise appends. -/
def setField (r : DbRow) (c : String) (v : DbValue) : DbRow :=
  if r.any (fun p => p.1 == c) then
    r.map (fun p => if p.1 == c then (c, v) else p)
  else
    r ++ [(c, v)]

/-- JS object spread `{...record, ...patch}`: every binding of `patch`
overrides the corresponding binding of `record`. -/
def applyPatch (r patch : DbRow) : DbRow :=
  patch.foldl (fun acc p => setField acc p.1 p.2) r

/-- One filter recorded by the select query surface.  In the source a
filter is encoded as a suffix-tagged object key (`column`, `column_neq`,
`column_lt`, ...) built by `createSelectQuery` and decoded by suffix in
`executeSelect`; for the column names the repository uses the encoding is
injective, so the filter is embedded directly as a tagged pair. -/
inductive DbFilter where
  | eq (c : String) (v : DbValue) : DbFilter
  | neq (c : String) (v : DbValue) : DbFilter
  | lt (c : String) (v : DbValue) : DbFilter
  | lte (c : String) (v : DbValue) : DbFilter
  | gt (c : String) (v : DbValue) : DbFilter
  | gte (c : String) (v : DbValue) : DbFilter
deriving DecidableEq, Repr

/-- Whether a record passes one filter, straight from the filter loop of
`executeSelect`: equality is strict (`!==` excludes), the strict
comparisons exclude a missing column (`undefined` comparisons are falsy in
JS) and exclude the boundary, the non-strict ones include the boundary. -/
def matchesFilter (r : DbRow) : DbFilter → Bool
  | .eq c v => getField r c == some v
  | .neq c v => !(getField r c == some v)
  | .lt c v => match getField r c with
      | some w => DbValue.jsLt w v
      | none => false
  | .lte c v => match getField r c with
      | some w => DbValue.jsLe w v
      | none => false
  | .gt c v => match getField r c with
      | some w => DbValue.jsLt v w
      | none => false
  | .gte c v => match getField r c with
      | some w => DbValue.jsLe v w
      | none => false

/-- All filters applied conjunctively, as in the `executeSelect` scan. -/
def matchesFilters (r : DbRow) (fs : List DbFilter) : Bool :=
  fs.all (fun f => matchesFilter r f)

/-- `matchesFilters` of `executeUpdate`/`executeDelete`: plain strict
equality on every filter key. -/
def matchesEqFilters (r : DbRow) (fs : List (String × DbValue)) : Bool :=
  fs.all (fun p => getField r p.1 == some p.2)

/-- The three in-memory tables of `MockDatabaseService`, each a `Map` from
assigned id to record (embedded as an insertion-ordered association list),
together with the per-table `nextId` counters. -/
structure MockDB where
  reminders : List (Nat × DbRow)
  sentReminders : List (Nat × DbRow)
  conversations : List (Nat × DbRow)
  nextReminders : Nat
  nextSentReminders : Nat
  nextConversations : Nat
deriving Repr

/-- `Array.from(map.values())` for the table named by the string, `none`
for an unknown table name. -/
def tableRows (db : MockDB) : String → Option (List DbRow)
  | "reminders" => some (db.reminders.map (fun p => p.2))
  | "sent_reminders" => some (db.sentReminders.map (fun p => p.2))
  | "conversations" => some (db.conversations.map (fun p => p.2))
  | _ => none

structure QueryResult where
  data : Option (List DbRow)
  error : Option String
deriving Repr

/-- `MockDatabaseService.executeSelect`: unknown table yields an error
result (never a throw); otherwise the rows of the table filtered
conjunctively by all recorded filters. -/
def executeSelect (db : MockDB) (table : String) (fs : List DbFilter) : QueryResult :=
  match tableRows db table with
  | none => { data := none, error := some ("Unknown table: " ++ table) }
  | some rows => { data := some (rows.filter (fun r => matchesFilters r fs)), error := none }

/-- The methods exposed by the object `createSelectQuery` returns,
transliterated from its object literal. -/
def selectHandleMethods : List String :=
  ["eq", "neq", "lt", "lte", "gt", "gte", "order", "then"]

/-- The methods exposed by the object each filter method of the select
handle returns (`eq`, `neq`, `lt`, `lte`, `gt`, `gte` all return a literal
carrying a single `then`): no further filter can be chained onto it. -/
def filteredHandleMethods : List String :=
  ["then"]

structure InsertResult where
  data : Option DbRow
  error : Option String
deriving Repr

/-- JS truthiness of an optional column value (`record.created_at || now`
falls back when the column is missing, the empty string, or zero). -/
def truthyField (v : Option DbValue) : Bool :=
  match v with
  | none => false
  | some (.str s) => !(s == "")
  | some (.int i) => !(i == 0)

/-- The value the insert stores for `created_at`:
`record.created_at || new Date().toISOString()`. -/
def createdAtValue (r : DbRow) (now : DbValue) : DbValue :=
  if truthyField (getField r ("created_at")) then
    (getField r ("created_at")).getD now
  else now

/-- `MockDatabaseService.executeInsert` at instant `now` (the value of
`new Date().toISOString()` during the call).  `reminders` rows get a fresh
id, a `created_at` fallback and an `updated_at` stamp; `sent_reminders`
rows get only the fresh id; `conversations` rows get the fresh id and the
`created_at` fallback.  An unknown table is an error result, and the
database is unchanged. -/
def executeInsert (db : MockDB) (table : String) (record : DbRow) (now : DbValue) :
    InsertResult × MockDB :=
  match table with
  | "reminders" =>
      let id := db.nextReminders
      let stored :=
        setField (setField (setField record ("id") (.int id))
          ("created_at") (createdAtValue record now)) ("updated_at") now
      ({ data := some stored, error := none },
       { db with reminders := db.reminders ++ [(id, stored)], nextReminders := id + 1 })
  | "sent_reminders" =>
      let id := db.nextSentReminders
      let stored := setField record ("id") (.int id)
      ({ data := some stored, error := none },
       { db with sentReminders := db.sentReminders ++ [(id, stored)],
                 nextSentReminders := id + 1 })
  | "conversations" =>
      let id := db.nextConversations
      let stored :=
        setField (setField record ("id") (.int id)) ("created_at") (createdAtValue record now)
      ({ data := some stored, error := none },
       { db with conversations := db.conversations ++ [(id, stored)],
                 nextConversations := id + 1 })
  | _ => ({ data := none, error := some ("Unknown table: " ++ table) }, db)

structure UpdateResult where
  count : Nat
  error : Option String
deriving Repr

/-- The per-row effect of `executeUpdate` on the `reminders` table:
`{...record, ...data, updated_at: new Date().toISOString()}`. -/
def patchReminderRow (r patch : DbRow) (now : DbValue) : DbRow :=
  setField (applyPatch r patch) ("updated_at") now

/-- `MockDatabaseService.executeUpdate`: every row matching the equality
filters is replaced (in place, preserving its id and position) by the
patched row; only the `reminders` case stamps `updated_at`.  The returned
count is the number of matching rows.  The `switch` has no default case,
so an unknown table updates nothing and still reports a zero count with a
null error. -/
def executeUpdate (db : MockDB) (table : String) (patch : DbRow)
    (fs : List (String × DbValue)) (now : DbValue) : UpdateResult × MockDB :=
  match table with
  | "reminders" =>
      ({ count := (db.reminders.filter (fun p => matchesEqFilters p.2 fs)).length,
         error := none },
       { db with reminders := db.reminders.map (fun p =>
           if matchesEqFilters p.2 fs then (p.1, patchReminderRow p.2 patch now) else p) })
  | "sent_reminders" =>
      ({ count := (db.sentReminders.filter (fun p => matchesEqFilters p.2 fs)).length,
         error := none },
       { db with sentReminders := db.sentReminders.map (fun p =>
           if matchesEqFilters p.2 fs then (p.1, applyPatch p.2 patch) else p) })
  | "conversations" =>
      ({ count := (db.conversations.filter (fun p => matchesEqFilters p.2 fs)).length,
         error := none },
       { db with conversations := db.conversations.map (fun p =>
           if matchesEqFilters p.2 fs then (p.1, applyPatch p.2 patch) else p) })
  | _ => ({ count := 0, error := none }, db)

/-! ## Reminder service (`reminder-service.ts`) -/

/-- `Math.ceil((expiryDate.getTime() - now.getTime()) / (1000*60*60*24))`:
the exact ceiling of the millisecond difference divided by one day,
embedded with integer floor division (`ceil (x / D) = -floor (-x / D)`). -/
def daysUntilExpiry (expiry now : Int) : Int :=
  -((now - expiry).fdiv 86400000)

/-- The grace-period text, written verbatim both in `processReminders`
(the expired branch) and in `createReminderMessage` (its `<= 0` tier). -/
def graceMessage (domain : String) : String :=
  "🚨 URGENT: Your ENS domain \"" ++ domain ++ "\" has expired! You may still be able to renew it during the grace period. Act quickly to avoid losing your domain."

/-- `ReminderService.createReminderMessage`: tiered urgency text chosen by
the if/else chain on days until expiry. -/
def createReminderMessage (domain : String) (d : Int) : String :=
  if d ≤ 0 then graceMessage domain
  else if d = 1 then
    "🚨 FINAL NOTICE: Your ENS domain \"" ++ domain ++ "\" expires TOMORROW! Please renew it immediately to avoid losing your domain."
  else if d ≤ 7 then
    "⚡ URGENT: Your ENS domain \"" ++ domain ++ "\" expires in " ++ toString d ++ " days! Please renew it soon to avoid losing your domain."
  else if d ≤ 30 then
    "⏰ Reminder: Your ENS domain \"" ++ domain ++ "\" expires in " ++ toString d ++ " days. Consider renewing it to ensure you don't lose your domain."
  else
    "📅 Reminder: Your ENS domain \"" ++ domain ++ "\" expires in " ++ toString d ++ " days. You have plenty of time, but it's good to keep track!"

/-- The five message tiers of `createReminderMessage`. -/
inductive MsgTier where
  | expired : MsgTier
  | dueTomorrow : MsgTier
  | dueWithinWeek : MsgTier
  | dueWithinMonth : MsgTier
  | dueLater : MsgTier
deriving DecidableEq, Repr

/-- The tier selected by the if/else chain of `createReminderMessage`. -/
def messageTier (d : Int) : MsgTier :=
  if d ≤ 0 then .expired
  else if d = 1 then .dueTomorrow
  else if d ≤ 7 then .dueWithinWeek
  else if d ≤ 30 then .dueWithinMonth
  else .dueLater

/-- The text of each tier as a function of the tier. -/
def renderTier (t : MsgTier) (domain : String) (d : Int) : String :=
  match t with
  | .expired => graceMessage domain
  | .dueTomorrow =>
    "🚨 FINAL NOTICE: Your ENS domain \"" ++ domain ++ "\" expires TOMORROW! Please renew it immediately to avoid losing your domain."
  | .dueWithinWeek =>
    "⚡ URGENT: Your ENS domain \"" ++ domain ++ "\" expires in " ++ toString d ++ " days! Please renew it soon to avoid losing your domain."
  | .dueWithinMonth =>
    "⏰ Reminder: Your ENS domain \"" ++ domain ++ "\" expires in " ++ toString d ++ " days. Consider renewing it to ensure you don't lose your domain."
  | .dueLater =>
    "📅 Reminder: Your ENS domain \"" ++ domain ++ "\" expires in " ++ toString d ++ " days. You have plenty of time, but it's good to keep track!"

/-- The service configuration and the XMTP gateway connection state during
a pass: `enableXMTP` from `ReminderServiceConfig`, `xmtpConnected` the
`isConnected` flag of the mock XMTP singleton (when connected, its
`sendMessage` always succeeds; when not, it throws), and the configured
reminder intervals (default `[30, 7, 1]`). -/
structure SvcEnv where
  enableXMTP : Bool
  xmtpConnected : Bool
  intervals : List Nat
deriving Repr

/-- One row of the `reminders` table as consumed by `processReminders`
(`expiry_date` as the parsed instant). -/
structure ReminderRow where
  id : Nat
  domain : String
  wallet_address : String
  expiry_date : Int
deriving DecidableEq, Repr

/-- One row of the `sent_reminders` table as written by
`recordSentReminder` (`reminder_type` kept as the string tag
`day_<interval>` the source builds). -/
structure SentReminderRow where
  id : Nat
  reminder_id : Nat
  reminder_type : String
  sent_at : Int
deriving DecidableEq, Repr

/-- The mutable state a pass touches: the `sent_reminders` table with its
id counter, the gateway's sent-message log `(recipient, content)`, the
number of `sendMessage` invocations (including throwing ones), the
reminder ids for which the grace-period branch delivered its notice (an
observation marking that call site), and the pass's processed counter. -/
structure ProcState where
  sent : List SentReminderRow
  nextSentId : Nat
  msgs : List (String × String)
  xmtpCalls : Nat
  graceLog : List Nat
  processedCount : Nat
deriving DecidableEq, Repr

def emptyProcState : ProcState :=
  { sent := [], nextSentId := 1, msgs := [], xmtpCalls := 0, graceLog := [], processedCount := 0 }

/-- The `day_${interval}` tag. -/
def typeTag (i : Nat) : String := "day_" ++ toString i

/-- `ReminderService.hasReminderBeenSent`: select `sent_reminders`, filter
by `reminder_id`, then `some` record with the requested `reminder_type`. -/
def hasReminderBeenSent (st : ProcState) (rid : Nat) (t : String) : Bool :=
  (st.sent.filter (fun row => row.reminder_id == rid)).any
    (fun row => row.reminder_type == t)

/-- `ReminderService.recordSentReminder`: insert a `sent_reminders` row
(the mock insert assigns the next id and stores the row). -/
def recordSentReminder (st : ProcState) (rid : Nat) (t : String) (now : Int) : ProcState :=
  { st with
    sent := st.sent ++ [{ id := st.nextSentId, reminder_id := rid,
                          reminder_type := t, sent_at := now }],
    nextSentId := st.nextSentId + 1 }

/-- `ReminderService.sendReminder`: with XMTP disabled it returns `true`
without touching the gateway; otherwise it calls `sendMessage`, which
succeeds when connected and throws when not — the catch turns the throw
into a `false` return. -/
def sendReminder (env : SvcEnv) (st : ProcState) (wallet domain : String) (d : Int) :
    Bool × ProcState :=
  if env.enableXMTP = false then (true, st)
  else if env.xmtpConnected then
    (true, { st with xmtpCalls := st.xmtpCalls + 1,
                     msgs := st.msgs ++ [(wallet, createReminderMessage domain d)] })
  else (false, { st with xmtpCalls := st.xmtpCalls + 1 })

/-- The body of the interval loop of `processReminders` for one reminder
row and one configured interval: if due (`daysUntilExpiry === interval`),
check the dedup table, send, and record plus count only on success. -/
def processInterval (env : SvcEnv) (now : Int) (r : ReminderRow) (d : Int) (i : Nat)
    (st : ProcState) : ProcState :=
  if d = (i : Int) then
    let t := typeTag i
    if hasReminderBeenSent st r.id t then st
    else
      match sendReminder env st r.wallet_address r.domain d with
      | (true, st') =>
          let st'' := recordSentReminder st' r.id t now
          { st'' with processedCount := st''.processedCount + 1 }
      | (false, st') => st'
  else st

/-- The effect of the grace branch's successful `sendMessage` call on the
gateway state: one invocation, the grace text delivered to the row's
wallet, and the call site observed in the grace log. -/
def graceAttemptState (r : ReminderRow) (st : ProcState) : ProcState :=
  { st with xmtpCalls := st.xmtpCalls + 1,
            msgs := st.msgs ++ [(r.wallet_address, graceMessage r.domain)],
            graceLog := st.graceLog ++ [r.id] }

/-- The expired-domain block of `processReminders`: when
`daysUntilExpiry <= 0`, the grace notice is deduplicated under the `day_1`
tag and sent directly through the gateway's `sendMessage` (bypassing
`sendReminder`), recording on a truthy result.  When the gateway is not
connected, `sendMessage` throws out of the async loop body, which aborts
the rest of the pass: the returned flag is `false` in that case. -/
def processGrace (env : SvcEnv) (now : Int) (r : ReminderRow) (d : Int)
    (st : ProcState) : ProcState × Bool :=
  if d ≤ 0 then
    if hasReminderBeenSent st r.id (typeTag 1) then (st, true)
    else if env.xmtpConnected then
      let st'' := recordSentReminder (graceAttemptState r st) r.id (typeTag 1) now
      ({ st'' with processedCount := st''.processedCount + 1 }, true)
    else ({ st with xmtpCalls := st.xmtpCalls + 1 }, false)
  else (st, true)

/-- One reminder row's slice of the pass: compute `daysUntilExpiry`, run
the interval loop, then the expired-domain block. -/
def processOneReminder (env : SvcEnv) (now : Int) (r : ReminderRow) (st : ProcState) :
    ProcState × Bool :=
  let d := daysUntilExpiry r.expiry_date now
  let st1 := env.intervals.foldl (fun acc i => processInterval env now r d i acc) st
  processGrace env now r d st1

/-- `ReminderService.processReminders` at evaluation instant `now` over
the rows read from the `reminders` table: each row in turn; an uncaught
throw from the grace branch aborts the remaining rows. -/
def processReminders (env : SvcEnv) (now : Int) :
    List ReminderRow → ProcState → ProcState × Bool
  | [], st => (st, true)
  | r :: rest, st =>
      match processOneReminder env now r st with
      | (st', true) => processReminders env now rest st'
      | (st', false) => (st', false)

/-- Repeated evaluation passes at the given instants (the cron keeps
scheduling passes whether or not an earlier one aborted). -/
def runPasses (env : SvcEnv) (rows : List ReminderRow) (nows : List Int)
    (st : ProcState) : ProcState :=
  nows.foldl (fun acc n => (processReminders env n rows acc).1) st

/-- Number of `sent_reminders` rows carrying a given
(`reminder_id`, `reminder_type`) pair. -/
def pairCount (st : ProcState) (rid : Nat) (t : String) : Nat :=
  (st.sent.filter (fun row => row.reminder_id == rid && row.reminder_type == t)).length

/-- Number of grace-period notices delivered for a reminder id. -/
def graceCount (st : ProcState) (rid : Nat) : Nat :=
  st.graceLog.count rid

/-- The default configured intervals of `ReminderService`. -/
def defaultIntervals : List Nat := [30, 7, 1]

/-- The intervals the loop guard `daysUntilExpiry === interval` accepts
for a given days-remaining value. -/
def dueIntervals (intervals : List Nat) (d : Int) : List Nat :=
  intervals.filter (fun i => d == (i : Int))

/-- The guard of the expired-domain block. -/
def graceDue (d : Int) : Bool := d ≤ 0

/-! ## Mock cron (`mock-cron.ts`) -/

/-- `leadsWith pat l`: `pat` is an initial segment of `l`. -/
def leadsWith : List Char → List Char → Bool
  | [], _ => true
  | _ :: _, [] => false
  | a :: as, b :: bs => a == b && leadsWith as bs

/-- `occursIn pat l`: `pat` occurs contiguously somewhere in `l`. -/
def occursIn (pat : List Char) : List Char → Bool
  | [] => leadsWith pat []
  | c :: rest => leadsWith pat (c :: rest) || occursIn pat rest

/-- JS `String.prototype.includes`. -/
def strIncludes (s pat : String) : Bool := occursIn pat.data s.data

/-- A `CronJob` record (callback held externally; `lastRun`/`nextRun` as
instants). -/
structure CronJob where
  schedule : String
  isRunning : Bool
  runCount : Nat
  lastRun : Option Int
  nextRun : Option Int
deriving DecidableEq, Repr

/-- `MockCronService.calculateNextRun`: pattern-match on the cron
expression, yielding a fixed offset from `now`. -/
def calculateNextRun (expr : String) (now : Int) : Int :=
  if strIncludes expr ("0 9 * * *") then now + 10000
  else if strIncludes expr ("* * * * *") then now + 5000
  else now + 30000

/-- The synchronous prefix of `MockCronService.executeJob`, up to and
including starting the callback: a running job is skipped (the returned
flag says whether the callback was invoked); otherwise the running flag is
set, `lastRun` stamped and the run counter bumped. -/
def executeJobStart (j : CronJob) (now : Int) : CronJob × Bool :=
  if j.isRunning then (j, false)
  else ({ j with isRunning := true, lastRun := some now, runCount := j.runCount + 1 }, true)

/-- The completion of `executeJob` (its `finally` block, reached whether
the callback returned or threw — the `catch` only logs): the running flag
clears and the next-run time is recomputed.  The result does not depend on
`ok`, which is how a callback exception stays inside the scheduler. -/
def executeJobFinish (j : CronJob) (ok : Bool) (now : Int) : CronJob :=
  let _ := ok
  { j with isRunning := false, nextRun := some (calculateNextRun j.schedule now) }

/-- `MockCronService.triggerJob` on a found job: an already-running job is
skipped, otherwise execution starts. -/
def triggerJobStart (j : CronJob) (now : Int) : CronJob × Bool :=
  if j.isRunning then (j, false)
  else executeJobStart j now

/-- The guard of `checkAndRunJobs` for one job:
`!job.isRunning && job.nextRun && now >= job.nextRun`. -/
def shouldAutoRun (j : CronJob) (now : Int) : Bool :=
  !j.isRunning &&
    (match j.nextRun with
     | some t => decide (t ≤ now)
     | none => false)

/-- Two overlapping `triggerJob` calls on the same job followed by the
completion of whichever callback was started: the first trigger at `t1`,
the second at `t2` while the first is still in flight, the completion at
`t3` with callback outcome `ok`.  Returns the final job state and the
total number of callback invocations. -/
def overlappingTrigger (j : CronJob) (t1 t2 t3 : Int) (ok : Bool) : CronJob × Nat :=
  let s1 := triggerJobStart j t1
  let s2 := triggerJobStart s1.1 t2
  let j3 := executeJobFinish s2.1 ok t3
  (j3, (if s1.2 then 1 else 0) + (if s2.2 then 1 else 0))

/-! ## Helper lemmas: effect of each step on the dedup counts -/

lemma pairCount_congr_sent {st st' : ProcState} (h : st'.sent = st.sent)
    (rid : Nat) (t : String) : pairCount st' rid t = pairCount st rid t := by
  simp [pairCount, h]

lemma graceCount_congr {st st' : ProcState} (h : st'.graceLog = st.graceLog)
    (rid : Nat) : graceCount st' rid = graceCount st rid := by
  simp [graceCount, h]

lemma pairCount_record (st : ProcState) (rid : Nat) (t : String) (now : Int)
    (rid' : Nat) (t' : String) :
    pairCount (recordSentReminder st rid t now) rid' t' =
      pairCount st rid' t' + (if rid = rid' ∧ t = t' then 1 else 0) := by
  unfold pairCount recordSentReminder
  rw [List.filter_append, List.length_append]
  congr 1
  by_cases h : rid = rid' ∧ t = t'
  · rcases h with ⟨h1, h2⟩
    subst h1; subst h2
    simp
  · rw [if_neg h]
    simp only [List.filter, Bool.and_eq_true, beq_iff_eq]
    split
    · rename_i hcond
      simp only [Bool.and_eq_true, beq_iff_eq] at hcond
      exact absurd hcond h
    · rfl

lemma hasSent_false_pairCount_zero {st : ProcState} {rid : Nat} {t : String}
    (h : hasReminderBeenSent st rid t = false) : pairCount st rid t = 0 := by
  unfold hasReminderBeenSent at h
  unfold pairCount
  rw [List.length_eq_zero, List.filter_eq_nil_iff]
  intro row hrow
  simp only [Bool.and_eq_true, beq_iff_eq, not_and]
  intro h1 h2
  rw [← Bool.not_eq_true, List.any_eq_true] at h
  exact h ⟨row, List.mem_filter.mpr ⟨hrow, by simp [h1]⟩, by simp [h2]⟩

lemma sendReminder_sent (env : SvcEnv) (st : ProcState) (w dom : String) (d : Int) :
    (sendReminder env st w dom d).2.sent = st.sent := by
  unfold sendReminder
  split
  · rfl
  · split <;> rfl

lemma sendReminder_graceLog (env : SvcEnv) (st : ProcState) (w dom : String) (d : Int) :
    (sendReminder env st w dom d).2.graceLog = st.graceLog := by
  unfold sendReminder
  split
  · rfl
  · split <;> rfl

/-! Shape lemmas: one equation per branch of the interval and grace
blocks, so later invariant proofs can case-split cleanly. -/

lemma processInterval_not_due (env : SvcEnv) (now : Int) (r : ReminderRow)
    (d : Int) (i : Nat) (st : ProcState) (h : ¬ d = (i : Int)) :
    processInterval env now r d i st = st := by
  simp [processInterval, h]

lemma processInterval_already_sent (env : SvcEnv) (now : Int) (r : ReminderRow)
    (d : Int) (i : Nat) (st : ProcState) (hd : d = (i : Int))
    (h : hasReminderBeenSent st r.id (typeTag i) = true) :
    processInterval env now r d i st = st := by
  subst hd
  simp [processInterval, h]

lemma processInterval_send_failed (env : SvcEnv) (now : Int) (r : ReminderRow)
    (d : Int) (i : Nat) (st : ProcState) {st' : ProcState} (hd : d = (i : Int))
    (hsent : hasReminderBeenSent st r.id (typeTag i) = false)
    (hsr : sendReminder env st r.wallet_address r.domain d = (false, st')) :
    processInterval env now r d i st = st' := by
  subst hd
  simp [processInterval, hsent, hsr]

lemma processInterval_send_ok (env : SvcEnv) (now : Int) (r : ReminderRow)
    (d : Int) (i : Nat) (st : ProcState) {st' : ProcState} (hd : d = (i : Int))
    (hsent : hasReminderBeenSent st r.id (typeTag i) = false)
    (hsr : sendReminder env st r.wallet_address r.domain d = (true, st')) :
    processInterval env now r d i st =
      { recordSentReminder st' r.id (typeTag i) now with
        processedCount := (recordSentReminder st' r.id (typeTag i) now).processedCount + 1 } := by
  subst hd
  simp [processInterval, hsent, hsr]

lemma processGrace_not_due (env : SvcEnv) (now : Int) (r : ReminderRow)
    (d : Int) (st : ProcState) (h : ¬ d ≤ 0) :
    processGrace env now r d st = (st, true) := by
  simp [processGrace, h]

lemma processGrace_already_sent (env : SvcEnv) (now : Int) (r : ReminderRow)
    (d : Int) (st : ProcState) (hd : d ≤ 0)
    (h : hasReminderBeenSent st r.id (typeTag 1) = true) :
    processGrace env now r d st = (st, true) := by
  simp [processGrace, hd, h]

lemma processGrace_sent (env : SvcEnv) (now : Int) (r : ReminderRow)
    (d : Int) (st : ProcState) (hd : d ≤ 0)
    (hsent : hasReminderBeenSent st r.id (typeTag 1) = false)
    (hc : env.xmtpConnected = true) :
    processGrace env now r d st =
      ({ recordSentReminder (graceAttemptState r st) r.id (typeTag 1) now with
         processedCount :=
           (recordSentReminder (graceAttemptState r st) r.id (typeTag 1) now).processedCount + 1 },
       true) := by
  simp [processGrace, hd, hsent, hc]

lemma processGrace_throw (env : SvcEnv) (now : Int) (r : ReminderRow)
    (d : Int) (st : ProcState) (hd : d ≤ 0)
    (hsent : hasReminderBeenSent st r.id (typeTag 1) = false)
    (hc : env.xmtpConnected = false) :
    processGrace env now r d st = ({ st with xmtpCalls := st.xmtpCalls + 1 }, false) := by
  simp [processGrace, hd, hsent, hc]

/-- Adding the processed-count bump on top of a fresh record leaves the
pair counts governed by `pairCount_record`. -/
lemma pairCount_record_bump (st : ProcState) (rid : Nat) (t : String) (now : Int)
    (rid' : Nat) (t' : String) :
    pairCount
      { recordSentReminder st rid t now with
        processedCount := (recordSentReminder st rid t now).processedCount + 1 } rid' t' =
    pairCount st rid' t' + (if rid = rid' ∧ t = t' then 1 else 0) := by
  exact pairCount_record st rid t now rid' t'

lemma graceCount_record_bump (st : ProcState) (rid : Nat) (t : String) (now : Int)
    (rid' : Nat) :
    graceCount
      { recordSentReminder st rid t now with
        processedCount := (recordSentReminder st rid t now).processedCount + 1 } rid' =
    graceCount st rid' := by
  exact graceCount_congr rfl rid'

lemma pairCount_graceAttempt (r : ReminderRow) (st : ProcState) (rid : Nat) (t : String) :
    pairCount (graceAttemptState r st) rid t = pairCount st rid t :=
  pairCount_congr_sent rfl rid t

lemma graceCount_graceAttempt (r : ReminderRow) (st : ProcState) (rid : Nat) :
    graceCount (graceAttemptState r st) rid =
      graceCount st rid + (if r.id = rid then 1 else 0) := by
  unfold graceCount graceAttemptState
  simp [List.count_append, List.count_singleton']

/-- The interval branch either leaves a pair's record count unchanged or
takes it from `0` to `1` (the insert happens only after the dedup lookup
came back empty). -/
lemma processInterval_pairCount_cases (env : SvcEnv) (now : Int) (r : ReminderRow)
    (d : Int) (i : Nat) (st : ProcState) (rid : Nat) (t : String) :
    pairCount (processInterval env now r d i st) rid t = pairCount st rid t ∨
    (pairCount st rid t = 0 ∧
      pairCount (processInterval env now r d i st) rid t = 1) := by
  by_cases hd : d = (i : Int)
  case neg =>
    left; rw [processInterval_not_due env now r d i st hd]
  case pos =>
    cases hsent : hasReminderBeenSent st r.id (typeTag i) with
    | true =>
      left; rw [processInterval_already_sent env now r d i st hd hsent]
    | false =>
      rcases hsr : sendReminder env st r.wallet_address r.domain d with ⟨success, st'⟩
      have hse : st'.sent = st.sent := by
        have h0 := sendReminder_sent env st r.wallet_address r.domain d
        rw [hsr] at h0; exact h0
      cases success with
      | false =>
        left
        rw [processInterval_send_failed env now r d i st hd hsent hsr]
        exact pairCount_congr_sent hse rid t
      | true =>
        rw [processInterval_send_ok env now r d i st hd hsent hsr,
          pairCount_record_bump, pairCount_congr_sent hse rid t]
        by_cases hp : r.id = rid ∧ typeTag i = t
        · right
          have hz : pairCount st rid t = 0 := by
            rcases hp with ⟨h1, h2⟩
            rw [← h1, ← h2]
            exact hasSent_false_pairCount_zero hsent
          exact ⟨hz, by rw [hz, if_pos hp]⟩
        · left
          rw [if_neg hp, Nat.add_zero]

/-- The interval branch never touches the grace log. -/
lemma processInterval_graceCount (env : SvcEnv) (now : Int) (r : ReminderRow)
    (d : Int) (i : Nat) (st : ProcState) (rid : Nat) :
    graceCount (processInterval env now r d i st) rid = graceCount st rid := by
  by_cases hd : d = (i : Int)
  case neg =>
    rw [processInterval_not_due env now r d i st hd]
  case pos =>
    cases hsent : hasReminderBeenSent st r.id (typeTag i) with
    | true =>
      rw [processInterval_already_sent env now r d i st hd hsent]
    | false =>
      rcases hsr : sendReminder env st r.wallet_address r.domain d with ⟨success, st'⟩
      have hgl : st'.graceLog = st.graceLog := by
        have h0 := sendReminder_graceLog env st r.wallet_address r.domain d
        rw [hsr] at h0; exact h0
      cases success with
      | false =>
        rw [processInterval_send_failed env now r d i st hd hsent hsr]
        exact graceCount_congr hgl rid
      | true =>
        rw [processInterval_send_ok env now r d i st hd hsent hsr,
          graceCount_record_bump]
        exact graceCount_congr hgl rid

/-- The grace branch either leaves a pair's record count unchanged or
takes it from `0` to `1`. -/
lemma processGrace_pairCount_cases (env : SvcEnv) (now : Int) (r : ReminderRow)
    (d : Int) (st : ProcState) (rid : Nat) (t : String) :
    pairCount (processGrace env now r d st).1 rid t = pairCount st rid t ∨
    (pairCount st rid t = 0 ∧
      pairCount (processGrace env now r d st).1 rid t = 1) := by
  by_cases hd : d ≤ 0
  case neg =>
    left; rw [processGrace_not_due env now r d st hd]
  case pos =>
    cases hsent : hasReminderBeenSent st r.id (typeTag 1) with
    | true =>
      left; rw [processGrace_already_sent env now r d st hd hsent]
    | false =>
      cases hc : env.xmtpConnected with
      | false =>
        left
        rw [processGrace_throw env now r d st hd hsent hc]
        exact pairCount_congr_sent rfl rid t
      | true =>
        rw [processGrace_sent env now r d st hd hsent hc]
        have hstep : pairCount
            ({ recordSentReminder (graceAttemptState r st) r.id (typeTag 1) now with
               processedCount :=
                 (recordSentReminder (graceAttemptState r st) r.id (typeTag 1) now).processedCount + 1 },
             true).1 rid t =
            pairCount st rid t + (if r.id = rid ∧ typeTag 1 = t then 1 else 0) := by
          rw [show (({ recordSentReminder (graceAttemptState r st) r.id (typeTag 1) now with
               processedCount :=
                 (recordSentReminder (graceAttemptState r st) r.id (typeTag 1) now).processedCount + 1 },
             true) : ProcState × Bool).1 =
            { recordSentReminder (graceAttemptState r st) r.id (typeTag 1) now with
               processedCount :=
                 (recordSentReminder (graceAttemptState r st) r.id (typeTag 1) now).processedCount + 1 }
            from rfl, pairCount_record_bump, pairCount_graceAttempt]
        rw [hstep]
        by_cases hp : r.id = rid ∧ typeTag 1 = t
        · right
          have hz : pairCount st rid t = 0 := by
            rcases hp with ⟨h1, h2⟩
            rw [← h1, ← h2]
            exact hasSent_false_pairCount_zero hsent
          exact ⟨hz, by rw [hz, if_pos hp]⟩
        · left
          rw [if_neg hp, Nat.add_zero]

/-- Grace-count bookkeeping for the grace branch: the count for a reminder
id grows (by one, at its own id) only in the delivering branch, where the
matching `day_1` record count also grows from zero. -/
lemma processGrace_graceCount_cases (env : SvcEnv) (now : Int) (r : ReminderRow)
    (d : Int) (st : ProcState) (rid : Nat) :
    graceCount (processGrace env now r d st).1 rid = graceCount st rid ∨
    (graceCount (processGrace env now r d st).1 rid = graceCount st rid + 1 ∧
      pairCount st rid (typeTag 1) = 0 ∧
      pairCount (processGrace env now r d st).1 rid (typeTag 1) = 1) := by
  by_cases hd : d ≤ 0
  case neg =>
    left; rw [processGrace_not_due env now r d st hd]
  case pos =>
    cases hsent : hasReminderBeenSent st r.id (typeTag 1) with
    | true =>
      left; rw [processGrace_already_sent env now r d st hd hsent]
    | false =>
      cases hc : env.xmtpConnected with
      | false =>
        left
        rw [processGrace_throw env now r d st hd hsent hc]
        exact graceCount_congr rfl rid
      | true =>
        rw [processGrace_sent env now r d st hd hsent hc]
        by_cases hp : r.id = rid
        · right
          rcases hp with rfl
          refine ⟨?_, ?_, ?_⟩
          · rw [show (({ recordSentReminder (graceAttemptState r st) r.id (typeTag 1) now with
                 processedCount :=
                   (recordSentReminder (graceAttemptState r st) r.id (typeTag 1) now).processedCount + 1 },
               true) : ProcState × Bool).1 =
              { recordSentReminder (graceAttemptState r st) r.id (typeTag 1) now with
                 processedCount :=
                   (recordSentReminder (graceAttemptState r st) r.id (typeTag 1) now).processedCount + 1 }
              from rfl, graceCount_record_bump, graceCount_graceAttempt, if_pos rfl]
          · exact hasSent_false_pairCount_zero hsent
          · rw [show (({ recordSentReminder (graceAttemptState r st) r.id (typeTag 1) now with
                 processedCount :=
                   (recordSentReminder (graceAttemptState r st) r.id (typeTag 1) now).processedCount + 1 },
               true) : ProcState × Bool).1 =
              { recordSentReminder (graceAttemptState r st) r.id (typeTag 1) now with
                 processedCount :=
                   (recordSentReminder (graceAttemptState r st) r.id (typeTag 1) now).processedCount + 1 }
              from rfl, pairCount_record_bump, pairCount_graceAttempt,
              hasSent_false_pairCount_zero hsent, if_pos ⟨rfl, rfl⟩]
        · left
          rw [show (({ recordSentReminder (graceAttemptState r st) r.id (typeTag 1) now with
               processedCount :=
                 (recordSentReminder (graceAttemptState r st) r.id (typeTag 1) now).processedCount + 1 },
             true) : ProcState × Bool).1 =
            { recordSentReminder (graceAttemptState r st) r.id (typeTag 1) now with
               processedCount :=
                 (recordSentReminder (graceAttemptState r st) r.id (typeTag 1) now).processedCount + 1 }
            from rfl, graceCount_record_bump, graceCount_graceAttempt, if_neg hp, Nat.add_zero]

/-! ## The dedup invariant and its preservation across passes -/

/-- At most one `sent_reminders` record exists per
(`reminder_id`, `reminder_type`) pair. -/
def SentInv (st : ProcState) : Prop :=
  ∀ rid t, pairCount st rid t ≤ 1

/-- Every delivered grace notice is covered by a `day_1`-tagged record for
the same reminder id. -/
def GraceInv (st : ProcState) : Prop :=
  ∀ rid, graceCount st rid ≤ pairCount st rid (typeTag 1)

def DedupInv (st : ProcState) : Prop := SentInv st ∧ GraceInv st

lemma processInterval_dedupInv (env : SvcEnv) (now : Int) (r : ReminderRow)
    (d : Int) (i : Nat) (st : ProcState) (h : DedupInv st) :
    DedupInv (processInterval env now r d i st) := by
  constructor
  · intro rid t
    rcases processInterval_pairCount_cases env now r d i st rid t with hc | ⟨h0, h1⟩
    · rw [hc]; exact h.1 rid t
    · rw [h1]
  · intro rid
    rw [processInterval_graceCount env now r d i st rid]
    rcases processInterval_pairCount_cases env now r d i st rid (typeTag 1) with hc | ⟨h0, h1⟩
    · rw [hc]; exact h.2 rid
    · have hg := h.2 rid
      rw [h0] at hg
      rw [h1]
      omega

lemma processGrace_dedupInv (env : SvcEnv) (now : Int) (r : ReminderRow)
    (d : Int) (st : ProcState) (h : DedupInv st) :
    DedupInv (processGrace env now r d st).1 := by
  constructor
  · intro rid t
    rcases processGrace_pairCount_cases env now r d st rid t with hc | ⟨h0, h1⟩
    · rw [hc]; exact h.1 rid t
    · rw [h1]
  · intro rid
    rcases processGrace_graceCount_cases env now r d st rid with hc | ⟨hg1, hp0, hp1⟩
    · rw [hc]
      rcases processGrace_pairCount_cases env now r d st rid (typeTag 1) with hc2 | ⟨h0, h1⟩
      · rw [hc2]; exact h.2 rid
      · have hg := h.2 rid
        rw [h0] at hg
        rw [h1]
        omega
    · have hg := h.2 rid
      rw [hp0] at hg
      rw [hg1, hp1]
      omega

lemma foldlIntervals_dedupInv (env : SvcEnv) (now : Int) (r : ReminderRow) (d : Int) :
    ∀ (l : List Nat) (st : ProcState), DedupInv st →
      DedupInv (l.foldl (fun acc i => processInterval env now r d i acc) st) := by
  intro l
  induction l with
  | nil => intro st h; exact h
  | cons i is ih =>
      intro st h
      rw [List.foldl_cons]
      exact ih _ (processInterval_dedupInv env now r d i st h)

lemma processOneReminder_dedupInv (env : SvcEnv) (now : Int) (r : ReminderRow)
    (st : ProcState) (h : DedupInv st) :
    DedupInv (processOneReminder env now r st).1 := by
  unfold processOneReminder
  exact processGrace_dedupInv env now r _ _
    (foldlIntervals_dedupInv env now r _ env.intervals st h)

lemma processReminders_dedupInv (env : SvcEnv) (now : Int) :
    ∀ (rows : List ReminderRow) (st : ProcState), DedupInv st →
      DedupInv (processReminders env now rows st).1 := by
  intro rows
  induction rows with
  | nil => intro st h; exact h
  | cons r rest ih =>
      intro st h
      rcases h1 : processOneReminder env now r st with ⟨st', ok⟩
      have hst' : DedupInv st' := by
        have := processOneReminder_dedupInv env now r st h
        rw [h1] at this; exact this
      cases ok with
      | true =>
          have : processReminders env now (r :: rest) st = processReminders env now rest st' := by
            simp [processReminders, h1]
          rw [this]
          exact ih st' hst'
      | false =>
          have : processReminders env now (r :: rest) st = (st', false) := by
            simp [processReminders, h1]
          rw [this]
          exact hst'

lemma runPasses_dedupInv (env : SvcEnv) (rows : List ReminderRow) :
    ∀ (nows : List Int) (st : ProcState), DedupInv st →
      DedupInv (runPasses env rows nows st) := by
  intro nows
  induction nows with
  | nil => intro st h; exact h
  | cons n rest ih =>
      intro st h
      have : runPasses env rows (n :: rest) st =
          runPasses env rows rest (processReminders env n rows st).1 := by
        simp [runPasses]
      rw [this]
      exact ih _ (processReminders_dedupInv env n rows st h)

lemma emptyProcState_dedupInv : DedupInv emptyProcState := by
  constructor
  · intro rid t
    simp [pairCount, emptyProcState]
  · intro rid
    simp [graceCount, pairCount, emptyProcState]

/-- C1: for every reminder row and every configured interval, any number
of evaluation passes at non-decreasing instants leaves at most one
`sent_reminders` record per (`reminder_id`, `day_<interval>` tag) pair —
in particular, a repeated pass at the same instant after one successful
delivery inserts nothing further for that pair.  (The proof does not even
need the monotonicity of the instants: the check-then-insert dedup alone
bounds the count.) -/
theorem processReminders_no_duplicate_delivery
    (env : SvcEnv) (rows : List ReminderRow) (nows : List Int)
    (rid : Nat) (t : String)
    (hmono : nows.Chain' (fun a b => a ≤ b)) :
    pairCount (runPasses env rows nows emptyProcState) rid t ≤ 1 := by
  have _ := hmono
  exact (runPasses_dedupInv env rows nows emptyProcState emptyProcState_dedupInv).1 rid t

theorem processReminders_no_duplicate_delivery_witness :
    List.Chain' (fun (a b : Int) => a ≤ b) [0, 0, 86400000] ∧
    pairCount (runPasses
      { enableXMTP := true, xmtpConnected := true, intervals := [30, 7, 1] }
      [{ id := 1, domain := "test.eth", wallet_address := "0xtest123",
         expiry_date := 86400000 }]
      [0, 0, 86400000] emptyProcState) 1 (typeTag 1) ≤ 1 :=
  ⟨by simp [List.chain'_cons],
   processReminders_no_duplicate_delivery
     { enableXMTP := true, xmtpConnected := true, intervals := [30, 7, 1] }
     [{ id := 1, domain := "test.eth", wallet_address := "0xtest123",
        expiry_date := 86400000 }]
     [0, 0, 86400000] 1 (typeTag 1) (by simp [List.chain'_cons])⟩

/-- C4 (amended): across any sequence of evaluation passes starting from
an empty delivery table, the post-expiry (grace-period) notice is
delivered AT MOST once per reminder row — not exactly once: the notice is
deduplicated under the shared `day_1` tag, so a pre-expiry day-1 record
suppresses it entirely (see the counterexample). -/
theorem grace_notice_at_most_once
    (env : SvcEnv) (rows : List ReminderRow) (nows : List Int) (rid : Nat) :
    graceCount (runPasses env rows nows emptyProcState) rid ≤ 1 := by
  have hinv := runPasses_dedupInv env rows nows emptyProcState emptyProcState_dedupInv
  exact le_trans (hinv.2 rid) (hinv.1 rid (typeTag 1))

/-- C4 counterexample: a reminder first served at one day before expiry
(pass at instant 0, expiry at one day) and then evaluated post-expiry
(pass at the expiry instant, where `daysUntilExpiry <= 0` holds) never
receives the post-expiry notice: the grace branch finds the `day_1` record
written by the 1-day reminder and skips, so the notice is delivered zero
times — not exactly once as claimed. -/
theorem grace_notice_zero_after_day1_counterexample :
    graceDue (daysUntilExpiry 86400000 86400000) = true ∧
    graceCount (runPasses
      { enableXMTP := true, xmtpConnected := true, intervals := [30, 7, 1] }
      [{ id := 1, domain := "test.eth", wallet_address := "0xtest123",
         expiry_date := 86400000 }]
      [0, 86400000] emptyProcState) 1 = 0 := by
  constructor
  · decide
  · decide

/-- C2: for a due interval (`daysUntilExpiry === interval`) with the
gateway configuration enabled, the pass first consults the dedup table: an
existing (`reminder_id`, tag) record means a verbatim skip (no gateway
call, no insert); with no record the gateway is invoked exactly once, and
the `sent_reminders` insert happens if and only if the send succeeded — a
failed send bumps only the invocation count, leaving `sent_reminders`
unchanged so the same pair is still eligible on the next pass. -/
theorem processInterval_record_iff_send_success
    (env : SvcEnv) (now : Int) (r : ReminderRow) (d : Int) (i : Nat) (st : ProcState)
    (hx : env.enableXMTP = true) (hd : d = (i : Int)) :
    (hasReminderBeenSent st r.id (typeTag i) = true →
      processInterval env now r d i st = st) ∧
    (hasReminderBeenSent st r.id (typeTag i) = false → env.xmtpConnected = true →
      processInterval env now r d i st =
        { recordSentReminder
            { st with xmtpCalls := st.xmtpCalls + 1,
                      msgs := st.msgs ++ [(r.wallet_address, createReminderMessage r.domain d)] }
            r.id (typeTag i) now with
          processedCount := st.processedCount + 1 }) ∧
    (hasReminderBeenSent st r.id (typeTag i) = false → env.xmtpConnected = false →
      processInterval env now r d i st = { st with xmtpCalls := st.xmtpCalls + 1 } ∧
      hasReminderBeenSent { st with xmtpCalls := st.xmtpCalls + 1 } r.id (typeTag i) = false) := by
  refine ⟨?_, ?_, ?_⟩
  · intro hsent
    exact processInterval_already_sent env now r d i st hd hsent
  · intro hsent hc
    have hsr : sendReminder env st r.wallet_address r.domain d =
        (true,
          { st with
            xmtpCalls := st.xmtpCalls + 1,
            msgs := st.msgs ++ [(r.wallet_address, createReminderMessage r.domain d)] }) := by
      simp [sendReminder, hx, hc]
    exact processInterval_send_ok env now r d i st hd hsent hsr
  · intro hsent hc
    have hsr : sendReminder env st r.wallet_address r.domain d =
        (false, { st with xmtpCalls := st.xmtpCalls + 1 }) := by
      simp [sendReminder, hx, hc]
    exact ⟨processInterval_send_failed env now r d i st hd hsent hsr, hsent⟩

theorem processInterval_record_iff_send_success_witness :
    processInterval { enableXMTP := true, xmtpConnected := true, intervals := [30, 7, 1] } 0
      { id := 1, domain := "test.eth", wallet_address := "0xtest123", expiry_date := 0 }
      30 30 emptyProcState =
      { recordSentReminder
          { emptyProcState with
            xmtpCalls := emptyProcState.xmtpCalls + 1,
            msgs := emptyProcState.msgs ++
              [("0xtest123", createReminderMessage ("test.eth") 30)] }
          1 (typeTag 30) 0 with
        processedCount := emptyProcState.processedCount + 1 } :=
  (processInterval_record_iff_send_success
    { enableXMTP := true, xmtpConnected := true, intervals := [30, 7, 1] } 0
    { id := 1, domain := "test.eth", wallet_address := "0xtest123", expiry_date := 0 }
    30 30 emptyProcState rfl (by decide)).2.1 (by decide) rfl

/-- C3: with the default interval list `[30, 7, 1]` and `daysRemaining`
the exact ceiling of the millisecond difference over one day, a row at
exactly 30, 7 or 1 days is due for precisely that interval (the loop over
all three intervals performs exactly that interval's step, and the grace
guard is off), while 29, 8 and 2 match no configured interval (the whole
loop is the identity) and are not grace-due either. -/
theorem threshold_exactness :
    (dueIntervals defaultIntervals 30 = [30] ∧ dueIntervals defaultIntervals 7 = [7] ∧
      dueIntervals defaultIntervals 1 = [1]) ∧
    (dueIntervals defaultIntervals 29 = [] ∧ dueIntervals defaultIntervals 8 = [] ∧
      dueIntervals defaultIntervals 2 = []) ∧
    (graceDue 30 = false ∧ graceDue 7 = false ∧ graceDue 1 = false ∧
      graceDue 29 = false ∧ graceDue 8 = false ∧ graceDue 2 = false) ∧
    (daysUntilExpiry (30 * 86400000) 0 = 30 ∧
      daysUntilExpiry (29 * 86400000 + 1) 0 = 30 ∧
      daysUntilExpiry (29 * 86400000) 0 = 29) ∧
    (∀ env now r st,
      defaultIntervals.foldl (fun acc i => processInterval env now r 30 i acc) st =
        processInterval env now r 30 30 st ∧
      defaultIntervals.foldl (fun acc i => processInterval env now r 7 i acc) st =
        processInterval env now r 7 7 st ∧
      defaultIntervals.foldl (fun acc i => processInterval env now r 1 i acc) st =
        processInterval env now r 1 1 st) ∧
    (∀ env now r st,
      defaultIntervals.foldl (fun acc i => processInterval env now r 29 i acc) st = st ∧
      defaultIntervals.foldl (fun acc i => processInterval env now r 8 i acc) st = st ∧
      defaultIntervals.foldl (fun acc i => processInterval env now r 2 i acc) st = st) := by
  refine ⟨by decide, by decide, by decide, by decide, ?_, ?_⟩
  · intro env now r st
    refine ⟨?_, ?_, ?_⟩
    · show processInterval env now r 30 1
        (processInterval env now r 30 7 (processInterval env now r 30 30 st)) =
        processInterval env now r 30 30 st
      rw [processInterval_not_due env now r 30 7 _ (by decide),
        processInterval_not_due env now r 30 1 _ (by decide)]
    · show processInterval env now r 7 1
        (processInterval env now r 7 7 (processInterval env now r 7 30 st)) =
        processInterval env now r 7 7 st
      rw [processInterval_not_due env now r 7 30 st (by decide),
        processInterval_not_due env now r 7 1 _ (by decide)]
    · show processInterval env now r 1 1
        (processInterval env now r 1 7 (processInterval env now r 1 30 st)) =
        processInterval env now r 1 1 st
      rw [processInterval_not_due env now r 1 30 st (by decide),
        processInterval_not_due env now r 1 7 _ (by decide)]
  · intro env now r st
    refine ⟨?_, ?_, ?_⟩
    · show processInterval env now r 29 1
        (processInterval env now r 29 7 (processInterval env now r 29 30 st)) = st
      rw [processInterval_not_due env now r 29 30 st (by decide),
        processInterval_not_due env now r 29 7 st (by decide),
        processInterval_not_due env now r 29 1 st (by decide)]
    · show processInterval env now r 8 1
        (processInterval env now r 8 7 (processInterval env now r 8 30 st)) = st
      rw [processInterval_not_due env now r 8 30 st (by decide),
        processInterval_not_due env now r 8 7 st (by decide),
        processInterval_not_due env now r 8 1 st (by decide)]
    · show processInterval env now r 2 1
        (processInterval env now r 2 7 (processInterval env now r 2 30 st)) = st
      rw [processInterval_not_due env now r 2 30 st (by decide),
        processInterval_not_due env now r 2 7 st (by decide),
        processInterval_not_due env now r 2 1 st (by decide)]

/-- C8: message rendering is the pure function `createReminderMessage` of
(resource name, days remaining), and it factors exactly through the five
tiers with the claimed boundaries: `<= 0` expired, `= 1` tomorrow,
`2..7` within a week, `8..30` within a month, `> 30` later. -/
theorem createReminderMessage_tier_boundaries (domain : String) (d : Int) :
    createReminderMessage domain d = renderTier (messageTier d) domain d ∧
    (d ≤ 0 → messageTier d = MsgTier.expired) ∧
    (d = 1 → messageTier d = MsgTier.dueTomorrow) ∧
    (2 ≤ d → d ≤ 7 → messageTier d = MsgTier.dueWithinWeek) ∧
    (8 ≤ d → d ≤ 30 → messageTier d = MsgTier.dueWithinMonth) ∧
    (30 < d → messageTier d = MsgTier.dueLater) := by
  refine ⟨?_, ?_, ?_, ?_, ?_, ?_⟩
  · unfold createReminderMessage renderTier messageTier
    split_ifs <;> rfl
  · intro h
    simp [messageTier, h]
  · intro h
    subst h
    rfl
  · intro h2 h7
    unfold messageTier
    rw [if_neg (by omega), if_neg (by omega), if_pos h7]
  · intro h8 h30
    unfold messageTier
    rw [if_neg (by omega), if_neg (by omega), if_neg (by omega), if_pos h30]
  · intro h
    unfold messageTier
    rw [if_neg (by omega), if_neg (by omega), if_neg (by omega), if_neg (by omega)]

theorem createReminderMessage_tier_boundaries_witness :
    createReminderMessage ("x.eth") 5 = renderTier (messageTier 5) ("x.eth") 5 ∧
    messageTier 0 = MsgTier.expired ∧ messageTier 1 = MsgTier.dueTomorrow ∧
    messageTier 5 = MsgTier.dueWithinWeek ∧ messageTier 15 = MsgTier.dueWithinMonth ∧
    messageTier 45 = MsgTier.dueLater :=
  ⟨(createReminderMessage_tier_boundaries ("x.eth") 5).1,
   (createReminderMessage_tier_boundaries ("x.eth") 0).2.1 (by norm_num),
   (createReminderMessage_tier_boundaries ("x.eth") 1).2.2.1 rfl,
   (createReminderMessage_tier_boundaries ("x.eth") 5).2.2.2.1 (by norm_num) (by norm_num),
   (createReminderMessage_tier_boundaries ("x.eth") 15).2.2.2.2.1 (by norm_num) (by norm_num),
   (createReminderMessage_tier_boundaries ("x.eth") 45).2.2.2.2.2 (by norm_num)⟩

/-- C10: with XMTP delivery disabled, `sendReminder` reports success
without invoking the gateway, so a due (reminder, interval) pair with no
prior record still gets a `sent_reminders` dedup record inserted while the
gateway log and invocation count stay untouched — deduplication happens
even though no message was ever sent. -/
theorem sendReminder_disabled_inserts_dedup_record
    (env : SvcEnv) (st : ProcState) (w dom : String) (dd : Int)
    (now : Int) (r : ReminderRow) (d : Int) (i : Nat)
    (hx : env.enableXMTP = false) (hd : d = (i : Int))
    (hsent : hasReminderBeenSent st r.id (typeTag i) = false) :
    sendReminder env st w dom dd = (true, st) ∧
    processInterval env now r d i st =
      { recordSentReminder st r.id (typeTag i) now with
        processedCount := st.processedCount + 1 } ∧
    (processInterval env now r d i st).msgs = st.msgs ∧
    (processInterval env now r d i st).xmtpCalls = st.xmtpCalls ∧
    pairCount (processInterval env now r d i st) r.id (typeTag i) =
      pairCount st r.id (typeTag i) + 1 := by
  have hsr : sendReminder env st r.wallet_address r.domain d = (true, st) := by
    simp [sendReminder, hx]
  have hpi := processInterval_send_ok env now r d i st hd hsent hsr
  refine ⟨by simp [sendReminder, hx], hpi, ?_, ?_, ?_⟩
  · rw [hpi]; rfl
  · rw [hpi]; rfl
  · rw [hpi, pairCount_record_bump, if_pos ⟨rfl, rfl⟩]

theorem sendReminder_disabled_inserts_dedup_record_witness :
    sendReminder { enableXMTP := false, xmtpConnected := false, intervals := [30, 7, 1] }
      emptyProcState ("0xtest123") ("test.eth") 30 = (true, emptyProcState) ∧
    (processInterval { enableXMTP := false, xmtpConnected := false, intervals := [30, 7, 1] } 0
      { id := 1, domain := "test.eth", wallet_address := "0xtest123", expiry_date := 0 }
      30 30 emptyProcState).msgs = emptyProcState.msgs ∧
    pairCount (processInterval
      { enableXMTP := false, xmtpConnected := false, intervals := [30, 7, 1] } 0
      { id := 1, domain := "test.eth", wallet_address := "0xtest123", expiry_date := 0 }
      30 30 emptyProcState) 1 (typeTag 30) =
      pairCount emptyProcState 1 (typeTag 30) + 1 :=
  ⟨(sendReminder_disabled_inserts_dedup_record
      { enableXMTP := false, xmtpConnected := false, intervals := [30, 7, 1] }
      emptyProcState ("0xtest123") ("test.eth") 30 0
      { id := 1, domain := "test.eth", wallet_address := "0xtest123", expiry_date := 0 }
      30 30 rfl (by decide) (by decide)).1,
   (sendReminder_disabled_inserts_dedup_record
      { enableXMTP := false, xmtpConnected := false, intervals := [30, 7, 1] }
      emptyProcState ("0xtest123") ("test.eth") 30 0
      { id := 1, domain := "test.eth", wallet_address := "0xtest123", expiry_date := 0 }
      30 30 rfl (by decide) (by decide)).2.2.1,
   (sendReminder_disabled_inserts_dedup_record
      { enableXMTP := false, xmtpConnected := false, intervals := [30, 7, 1] }
      emptyProcState ("0xtest123") ("test.eth") 30 0
      { id := 1, domain := "test.eth", wallet_address := "0xtest123", expiry_date := 0 }
      30 30 rfl (by decide) (by decide)).2.2.2.2⟩

/-- C6: per-job at-most-one-execution.  From an idle job, two overlapping
`triggerJob` calls start exactly one callback: the second call sees the
running flag and is a no-op.  On completion the running flag clears and
`nextRun` is recomputed from the schedule — the completed state is the
same whether the callback returned or threw (`ok` does not appear on the
right-hand side: the exception is caught inside the scheduler).  A running
job is also skipped by the polling loop's guard. -/
theorem mockCron_at_most_one_execution (j : CronJob) (t1 t2 t3 t4 : Int) (ok : Bool)
    (h : j.isRunning = false) :
    overlappingTrigger j t1 t2 t3 ok =
      ({ j with isRunning := false, lastRun := some t1, runCount := j.runCount + 1,
                nextRun := some (calculateNextRun j.schedule t3) }, 1) ∧
    triggerJobStart { j with isRunning := true } t4 = ({ j with isRunning := true }, false) ∧
    shouldAutoRun { j with isRunning := true } t4 = false := by
  refine ⟨?_, ?_, ?_⟩
  · simp [overlappingTrigger, triggerJobStart, executeJobStart, executeJobFinish, h]
  · simp [triggerJobStart]
  · simp [shouldAutoRun]

theorem mockCron_at_most_one_execution_witness :
    overlappingTrigger
      { schedule := "0 9 * * *", isRunning := false, runCount := 0,
        lastRun := none, nextRun := some 0 } 1 2 3 true =
      ({ schedule := "0 9 * * *", isRunning := false, runCount := 1,
         lastRun := some 1, nextRun := some (calculateNextRun ("0 9 * * *") 3) }, 1) ∧
    triggerJobStart
      { schedule := "0 9 * * *", isRunning := true, runCount := 0,
        lastRun := none, nextRun := some 0 } 4 =
      ({ schedule := "0 9 * * *", isRunning := true, runCount := 0,
         lastRun := none, nextRun := some 0 }, false) ∧
    shouldAutoRun
      { schedule := "0 9 * * *", isRunning := true, runCount := 0,
        lastRun := none, nextRun := some 0 } 4 = false :=
  mockCron_at_most_one_execution
    { schedule := "0 9 * * *", isRunning := false, runCount := 0,
      lastRun := none, nextRun := some 0 } 1 2 3 4 true rfl

lemma jsLt_self (v : DbValue) : DbValue.jsLt v v = false := by
  cases v with
  | int a => simp [DbValue.jsLt]
  | str s => simp [DbValue.jsLt, String.lt_irrefl]

lemma jsLe_self (v : DbValue) : DbValue.jsLe v v = true := by
  cases v with
  | int a => simp [DbValue.jsLe]
  | str s => simp [DbValue.jsLe, String.lt_irrefl]

/-- C5 counterexample: the select handle's filter methods cannot be
chained.  `createSelectQuery` returns an object exposing `eq` (so the
first `.eq` call is fine), but the object an `eq` call returns exposes
only `then` — `select(table).eq('wallet','X').eq('domain','Y')` dies with
a TypeError on the second `.eq`, so the chained form the claim asserts is
not supported by the store. -/
theorem select_eq_chaining_unsupported_counterexample :
    ("eq" ∈ selectHandleMethods) ∧ ("then" ∈ filteredHandleMethods) ∧
    ¬ ("eq" ∈ filteredHandleMethods) ∧ ¬ ("order" ∈ filteredHandleMethods) := by
  decide

/-- C5 (amended): the chained two-`eq` query is unsupported at the handle
level (see the counterexample), but the underlying scan has the claimed
semantics: `executeSelect` applies a filter set conjunctively (two
equality filters return exactly the rows matching both), and on any row
whose column holds the boundary value, `lt`/`gt` exclude the row while
`lte`/`gte` include it. -/
theorem executeSelect_and_semantics_and_boundaries
    (db : MockDB) (X Y : DbValue) (r : DbRow) (c : String) (v : DbValue)
    (hv : getField r c = some v) :
    (executeSelect db ("reminders")
        [DbFilter.eq ("wallet_address") X, DbFilter.eq ("domain") Y]).data =
      some ((db.reminders.map (fun p => p.2)).filter
        (fun row => (getField row ("wallet_address") == some X) &&
          (getField row ("domain") == some Y))) ∧
    matchesFilter r (DbFilter.lt c v) = false ∧
    matchesFilter r (DbFilter.gt c v) = false ∧
    matchesFilter r (DbFilter.lte c v) = true ∧
    matchesFilter r (DbFilter.gte c v) = true := by
  refine ⟨?_, ?_, ?_, ?_, ?_⟩
  · have h1 : (executeSelect db ("reminders")
        [DbFilter.eq ("wallet_address") X, DbFilter.eq ("domain") Y]).data =
        some ((db.reminders.map (fun p => p.2)).filter
          (fun row => matchesFilters row
            [DbFilter.eq ("wallet_address") X, DbFilter.eq ("domain") Y])) := rfl
    rw [h1]
    congr 1
    apply List.filter_congr
    intro row _
    simp [matchesFilters, matchesFilter]
  · simp [matchesFilter, hv, jsLt_self]
  · simp [matchesFilter, hv, jsLt_self]
  · simp [matchesFilter, hv, jsLe_self]
  · simp [matchesFilter, hv, jsLe_self]

theorem executeSelect_and_semantics_and_boundaries_witness :
    (executeSelect
        { reminders := [], sentReminders := [], conversations := [],
          nextReminders := 1, nextSentReminders := 1, nextConversations := 1 }
        ("reminders")
        [DbFilter.eq ("wallet_address") (DbValue.str ("0xa")),
         DbFilter.eq ("domain") (DbValue.str ("a.eth"))]).data =
      some ((([] : List (Nat × DbRow)).map (fun p => p.2)).filter
        (fun row => (getField row ("wallet_address") == some (DbValue.str ("0xa"))) &&
          (getField row ("domain") == some (DbValue.str ("a.eth"))))) ∧
    matchesFilter [(("ts"), DbValue.str ("2025-01-01"))]
      (DbFilter.lt ("ts") (DbValue.str ("2025-01-01"))) = false ∧
    matchesFilter [(("ts"), DbValue.str ("2025-01-01"))]
      (DbFilter.gt ("ts") (DbValue.str ("2025-01-01"))) = false ∧
    matchesFilter [(("ts"), DbValue.str ("2025-01-01"))]
      (DbFilter.lte ("ts") (DbValue.str ("2025-01-01"))) = true ∧
    matchesFilter [(("ts"), DbValue.str ("2025-01-01"))]
      (DbFilter.gte ("ts") (DbValue.str ("2025-01-01"))) = true :=
  executeSelect_and_semantics_and_boundaries
    { reminders := [], sentReminders := [], conversations := [],
      nextReminders := 1, nextSentReminders := 1, nextConversations := 1 }
    (DbValue.str ("0xa")) (DbValue.str ("a.eth"))
    [(("ts"), DbValue.str ("2025-01-01"))] ("ts") (DbValue.str ("2025-01-01")) rfl

/-! ## Field-lookup lemmas for `setField` -/

lemma any_key_false_find_none (r : DbRow) (c : String)
    (h : r.any (fun p => p.1 == c) = false) :
    r.find? (fun p => p.1 == c) = none := by
  rw [List.find?_eq_none]
  intro p hp
  rw [← Bool.not_eq_true, List.any_eq_true] at h
  intro hpc
  exact h ⟨p, hp, hpc⟩

lemma find_map_setField_self (r : DbRow) (c : String) (v : DbValue)
    (h : r.any (fun p => p.1 == c) = true) :
    (r.map (fun p => if p.1 == c then (c, v) else p)).find? (fun p => p.1 == c) =
      some (c, v) := by
  induction r with
  | nil => simp at h
  | cons a r ih =>
      by_cases hc : a.1 = c
      · rw [List.map_cons, if_pos (by simp [hc])]
        rw [List.find?_cons_of_pos _ (by simp)]
      · have h' : r.any (fun p => p.1 == c) = true := by
          rw [List.any_cons] at h
          simpa [hc] using h
        rw [List.map_cons, if_neg (by simp [hc])]
        rw [List.find?_cons_of_neg _ (by simp [hc])]
        exact ih h'

lemma find_map_setField_ne (r : DbRow) (c c' : String) (v : DbValue) (h : ¬ c' = c) :
    (r.map (fun p => if p.1 == c' then (c', v) else p)).find? (fun p => p.1 == c) =
      r.find? (fun p => p.1 == c) := by
  induction r with
  | nil => rfl
  | cons a r ih =>
      by_cases hc' : a.1 = c'
      · rw [List.map_cons, if_pos (by simp [hc'])]
        rw [List.find?_cons_of_neg _ (by simp [h]),
          List.find?_cons_of_neg _ (by simp [hc', h])]
        exact ih
      · rw [List.map_cons, if_neg (by simp [hc'])]
        by_cases hc : a.1 = c
        · rw [List.find?_cons_of_pos _ (by simp [hc]),
            List.find?_cons_of_pos _ (by simp [hc])]
        · rw [List.find?_cons_of_neg _ (by simp [hc]),
            List.find?_cons_of_neg _ (by simp [hc])]
          exact ih

lemma getField_setField_self (r : DbRow) (c : String) (v : DbValue) :
    getField (setField r c v) c = some v := by
  by_cases hany : r.any (fun p => p.1 == c) = true
  · rw [setField, if_pos hany]
    unfold getField
    rw [find_map_setField_self r c v hany]
    rfl
  · rw [setField, if_neg hany]
    unfold getField
    rw [List.find?_append,
      any_key_false_find_none r c (by rwa [Bool.not_eq_true] at hany)]
    simp [List.find?]

lemma getField_setField_ne (r : DbRow) (c c' : String) (v : DbValue) (h : ¬ c' = c) :
    getField (setField r c' v) c = getField r c := by
  by_cases hany : r.any (fun p => p.1 == c') = true
  · rw [setField, if_pos hany]
    unfold getField
    rw [find_map_setField_ne r c c' v h]
  · rw [setField, if_neg hany]
    unfold getField
    rw [List.find?_append]
    cases hf : r.find? (fun p => p.1 == c) with
    | some p => rfl
    | none =>
        have hb : (c' == c) = false := by simp [h]
        simp [List.find?, hb]

/-- Every id already present in a table is below the table's counter. -/
def freshIds (entries : List (Nat × DbRow)) (next : Nat) : Prop :=
  ∀ p ∈ entries, p.1 < next

/-- C7 counterexample: a successful insert into the known table
`sent_reminders` of a row carrying no creation time stores it with no
creation time — the insert does not stamp `created_at` for this table
(only `reminders` and `conversations` get the fallback), refuting the
claim's "for every known table". -/
theorem executeInsert_sent_reminders_no_created_at_counterexample :
    (executeInsert
      { reminders := [], sentReminders := [], conversations := [],
        nextReminders := 1, nextSentReminders := 1, nextConversations := 1 }
      ("sent_reminders")
      [(("reminder_id"), DbValue.int 1),
       (("sent_at"), DbValue.str ("2025-05-01T09:00:00.000Z"))]
      (DbValue.str ("2025-05-01T09:00:00.000Z"))).1.error = none ∧
    (executeInsert
      { reminders := [], sentReminders := [], conversations := [],
        nextReminders := 1, nextSentReminders := 1, nextConversations := 1 }
      ("sent_reminders")
      [(("reminder_id"), DbValue.int 1),
       (("sent_at"), DbValue.str ("2025-05-01T09:00:00.000Z"))]
      (DbValue.str ("2025-05-01T09:00:00.000Z"))).1.data =
      some [(("reminder_id"), DbValue.int 1),
            (("sent_at"), DbValue.str ("2025-05-01T09:00:00.000Z")),
            (("id"), DbValue.int 1)] ∧
    getField [(("reminder_id"), DbValue.int 1),
              (("sent_at"), DbValue.str ("2025-05-01T09:00:00.000Z")),
              (("id"), DbValue.int 1)] ("created_at") = none := by
  decide

/-- C7 (amended): `executeInsert` assigns each stored row the table's
counter as id — strictly greater than every previously assigned id in that
table, and the per-table freshness invariant is preserved — stores the row
and returns it, and an unknown table name is an error result with the
database unchanged; the creation-time fallback, however, is applied only
on `reminders` and `conversations`: a `sent_reminders` row is stored
exactly as given plus the id (see the counterexample). -/
theorem executeInsert_spec (db : MockDB) (record : DbRow) (now : DbValue)
    (h1 : freshIds db.reminders db.nextReminders)
    (h2 : freshIds db.sentReminders db.nextSentReminders)
    (h3 : freshIds db.conversations db.nextConversations) :
    (∀ t, tableRows db t = none →
      executeInsert db t record now =
        ({ data := none, error := some (("Unknown table: ") ++ t) }, db)) ∧
    (∃ row, (executeInsert db ("reminders") record now).1.data = some row ∧
      (executeInsert db ("reminders") record now).2.reminders =
        db.reminders ++ [(db.nextReminders, row)] ∧
      getField row ("id") = some (DbValue.int db.nextReminders) ∧
      (getField record ("created_at") = none →
        getField row ("created_at") = some now) ∧
      (∀ p ∈ db.reminders, p.1 < db.nextReminders) ∧
      freshIds (executeInsert db ("reminders") record now).2.reminders
        (executeInsert db ("reminders") record now).2.nextReminders) ∧
    (∃ row, (executeInsert db ("sent_reminders") record now).1.data = some row ∧
      (executeInsert db ("sent_reminders") record now).2.sentReminders =
        db.sentReminders ++ [(db.nextSentReminders, row)] ∧
      getField row ("id") = some (DbValue.int db.nextSentReminders) ∧
      getField row ("created_at") = getField record ("created_at") ∧
      (∀ p ∈ db.sentReminders, p.1 < db.nextSentReminders) ∧
      freshIds (executeInsert db ("sent_reminders") record now).2.sentReminders
        (executeInsert db ("sent_reminders") record now).2.nextSentReminders) ∧
    (∃ row, (executeInsert db ("conversations") record now).1.data = some row ∧
      (executeInsert db ("conversations") record now).2.conversations =
        db.conversations ++ [(db.nextConversations, row)] ∧
      getField row ("id") = some (DbValue.int db.nextConversations) ∧
      (getField record ("created_at") = none →
        getField row ("created_at") = some now) ∧
      (∀ p ∈ db.conversations, p.1 < db.nextConversations) ∧
      freshIds (executeInsert db ("conversations") record now).2.conversations
        (executeInsert db ("conversations") record now).2.nextConversations) := by
  refine ⟨?_, ?_, ?_, ?_⟩
  · intro t ht
    unfold executeInsert
    split
    · simp [tableRows] at ht
    · simp [tableRows] at ht
    · simp [tableRows] at ht
    · rfl
  · refine ⟨setField (setField (setField record ("id") (DbValue.int db.nextReminders))
      ("created_at") (createdAtValue record now)) ("updated_at") now, rfl, rfl, ?_, ?_, h1, ?_⟩
    · rw [getField_setField_ne _ _ _ _ (by decide),
        getField_setField_ne _ _ _ _ (by decide), getField_setField_self]
    · intro hnone
      rw [getField_setField_ne _ _ _ _ (by decide), getField_setField_self]
      simp [createdAtValue, hnone, truthyField]
    · intro p hp
      rcases List.mem_append.mp hp with hin | hin
      · exact Nat.lt_succ_of_lt (h1 p hin)
      · rw [List.mem_singleton.mp hin]
        exact Nat.lt_succ_self _
  · refine ⟨setField record ("id") (DbValue.int db.nextSentReminders), rfl, rfl, ?_, ?_, h2, ?_⟩
    · rw [getField_setField_self]
    · rw [getField_setField_ne _ _ _ _ (by decide)]
    · intro p hp
      rcases List.mem_append.mp hp with hin | hin
      · exact Nat.lt_succ_of_lt (h2 p hin)
      · rw [List.mem_singleton.mp hin]
        exact Nat.lt_succ_self _
  · refine ⟨setField (setField record ("id") (DbValue.int db.nextConversations))
      ("created_at") (createdAtValue record now), rfl, rfl, ?_, ?_, h3, ?_⟩
    · rw [getField_setField_ne _ _ _ _ (by decide), getField_setField_self]
    · intro hnone
      rw [getField_setField_self]
      simp [createdAtValue, hnone, truthyField]
    · intro p hp
      rcases List.mem_append.mp hp with hin | hin
      · exact Nat.lt_succ_of_lt (h3 p hin)
      · rw [List.mem_singleton.mp hin]
        exact Nat.lt_succ_self _

theorem executeInsert_spec_witness :
    executeInsert
      { reminders := [], sentReminders := [], conversations := [],
        nextReminders := 1, nextSentReminders := 1, nextConversations := 1 }
      ("nonsense") [] (DbValue.str ("T")) =
      ({ data := none, error := some (("Unknown table: ") ++ ("nonsense")) },
       { reminders := [], sentReminders := [], conversations := [],
         nextReminders := 1, nextSentReminders := 1, nextConversations := 1 }) ∧
    (∃ row, (executeInsert
      { reminders := [], sentReminders := [], conversations := [],
        nextReminders := 1, nextSentReminders := 1, nextConversations := 1 }
      ("reminders") [] (DbValue.str ("T"))).1.data = some row ∧
      getField row ("created_at") = some (DbValue.str ("T"))) :=
  ⟨(executeInsert_spec
      { reminders := [], sentReminders := [], conversations := [],
        nextReminders := 1, nextSentReminders := 1, nextConversations := 1 }
      [] (DbValue.str ("T"))
      (by intro p hp; simp at hp) (by intro p hp; simp at hp)
      (by intro p hp; simp at hp)).1 ("nonsense") rfl,
   by
    rcases (executeInsert_spec
      { reminders := [], sentReminders := [], conversations := [],
        nextReminders := 1, nextSentReminders := 1, nextConversations := 1 }
      [] (DbValue.str ("T"))
      (by intro p hp; simp at hp) (by intro p hp; simp at hp)
      (by intro p hp; simp at hp)).2.1 with ⟨row, hdata, _, _, hca, _, _⟩
    exact ⟨row, hdata, hca rfl⟩⟩

/-- C9 counterexample: updating the known table `sent_reminders` with an
equality filter patches the matching row and reports a count of 1, but
stamps no update time on it — the `updated_at` stamp exists only in the
`reminders` arm of `executeUpdate`, refuting the claim's "for every known
table". -/
theorem executeUpdate_sent_reminders_no_stamp_counterexample :
    (executeUpdate
      { reminders := [], sentReminders := [(1, [(("reminder_id"), DbValue.int 1)])],
        conversations := [], nextReminders := 1, nextSentReminders := 2,
        nextConversations := 1 }
      ("sent_reminders") [(("message_id"), DbValue.str ("m1"))]
      [(("reminder_id"), DbValue.int 1)] (DbValue.str ("T"))).1.count = 1 ∧
    (executeUpdate
      { reminders := [], sentReminders := [(1, [(("reminder_id"), DbValue.int 1)])],
        conversations := [], nextReminders := 1, nextSentReminders := 2,
        nextConversations := 1 }
      ("sent_reminders") [(("message_id"), DbValue.str ("m1"))]
      [(("reminder_id"), DbValue.int 1)] (DbValue.str ("T"))).2.sentReminders =
      [(1, [(("reminder_id"), DbValue.int 1), (("message_id"), DbValue.str ("m1"))])] ∧
    getField [(("reminder_id"), DbValue.int 1), (("message_id"), DbValue.str ("m1"))]
      ("updated_at") = none := by
  decide

/-- C9 (amended): a filtered `executeUpdate` applies the patch to exactly
the rows matching every equality filter, in place (non-matching rows and
the other two tables are untouched), and returns the count of matching
rows; the update-time stamp, however, is applied only in the `reminders`
arm — a patched `sent_reminders` or `conversations` row is just the merge
of the old row with the patch (see the counterexample). -/
theorem executeUpdate_spec (db : MockDB) (patch : DbRow)
    (fs : List (String × DbValue)) (now : DbValue) :
    ((executeUpdate db ("reminders") patch fs now).1.count =
        (db.reminders.filter (fun p => matchesEqFilters p.2 fs)).length ∧
      (executeUpdate db ("reminders") patch fs now).2.reminders =
        db.reminders.map (fun p =>
          if matchesEqFilters p.2 fs then (p.1, patchReminderRow p.2 patch now) else p) ∧
      (executeUpdate db ("reminders") patch fs now).2.sentReminders = db.sentReminders ∧
      (executeUpdate db ("reminders") patch fs now).2.conversations = db.conversations) ∧
    (∀ r, getField (patchReminderRow r patch now) ("updated_at") = some now) ∧
    ((executeUpdate db ("sent_reminders") patch fs now).1.count =
        (db.sentReminders.filter (fun p => matchesEqFilters p.2 fs)).length ∧
      (executeUpdate db ("sent_reminders") patch fs now).2.sentReminders =
        db.sentReminders.map (fun p =>
          if matchesEqFilters p.2 fs then (p.1, applyPatch p.2 patch) else p) ∧
      (executeUpdate db ("sent_reminders") patch fs now).2.reminders = db.reminders ∧
      (executeUpdate db ("sent_reminders") patch fs now).2.conversations = db.conversations) ∧
    ((executeUpdate db ("conversations") patch fs now).1.count =
        (db.conversations.filter (fun p => matchesEqFilters p.2 fs)).length ∧
      (executeUpdate db ("conversations") patch fs now).2.conversations =
        db.conversations.map (fun p =>
          if matchesEqFilters p.2 fs then (p.1, applyPatch p.2 patch) else p) ∧
      (executeUpdate db ("conversations") patch fs now).2.reminders = db.reminders ∧
      (executeUpdate db ("conversations") patch fs now).2.sentReminders =
        db.sentReminders) ∧
    (∀ p ∈ db.reminders, matchesEqFilters p.2 fs = false →
      p ∈ (executeUpdate db ("reminders") patch fs now).2.reminders) ∧
    (∀ p ∈ db.reminders, matchesEqFilters p.2 fs = true →
      (p.1, patchReminderRow p.2 patch now) ∈
        (executeUpdate db ("reminders") patch fs now).2.reminders) := by
  refine ⟨⟨rfl, rfl, rfl, rfl⟩, ?_, ⟨rfl, rfl, rfl, rfl⟩, ⟨rfl, rfl, rfl, rfl⟩, ?_, ?_⟩
  · intro r
    unfold patchReminderRow
    exact getField_setField_self _ _ _
  · intro p hp hm
    have hmem := List.mem_map_of_mem (fun q =>
      if matchesEqFilters q.2 fs then (q.1, patchReminderRow q.2 patch now) else q) hp
    simp only [hm, Bool.false_eq_true, if_false] at hmem
    exact hmem
  · intro p hp hm
    have hmem := List.mem_map_of_mem (fun q =>
      if matchesEqFilters q.2 fs then (q.1, patchReminderRow q.2 patch now) else q) hp
    simp only [hm, if_true] at hmem
    exact hmem

theorem executeUpdate_spec_witness :
    (executeUpdate
      { reminders := [(1, [(("domain"), DbValue.str ("a.eth"))]),
                      (2, [(("domain"), DbValue.str ("b.eth"))])],
        sentReminders := [], conversations := [],
        nextReminders := 3, nextSentReminders := 1, nextConversations := 1 }
      ("reminders") [(("domain"), DbValue.str ("c.eth"))]
      [(("domain"), DbValue.str ("a.eth"))] (DbValue.str ("T"))).1.count =
      ([(1, [(("domain"), DbValue.str ("a.eth"))]),
        (2, [(("domain"), DbValue.str ("b.eth"))])].filter (fun p =>
          matchesEqFilters p.2 [(("domain"), DbValue.str ("a.eth"))])).length ∧
    getField (patchReminderRow [(("domain"), DbValue.str ("a.eth"))]
      [(("domain"), DbValue.str ("c.eth"))] (DbValue.str ("T"))) ("updated_at") =
      some (DbValue.str ("T")) ∧
    (2, [(("domain"), DbValue.str ("b.eth"))]) ∈
      (executeUpdate
        { reminders := [(1, [(("domain"), DbValue.str ("a.eth"))]),
                        (2, [(("domain"), DbValue.str ("b.eth"))])],
          sentReminders := [], conversations := [],
          nextReminders := 3, nextSentReminders := 1, nextConversations := 1 }
        ("reminders") [(("domain"), DbValue.str ("c.eth"))]
        [(("domain"), DbValue.str ("a.eth"))] (DbValue.str ("T"))).2.reminders :=
  ⟨(executeUpdate_spec
      { reminders := [(1, [(("domain"), DbValue.str ("a.eth"))]),
                      (2, [(("domain"), DbValue.str ("b.eth"))])],
        sentReminders := [], conversations := [],
        nextReminders := 3, nextSentReminders := 1, nextConversations := 1 }
      [(("domain"), DbValue.str ("c.eth"))]
      [(("domain"), DbValue.str ("a.eth"))] (DbValue.str ("T"))).1.1,
   (executeUpdate_spec
      { reminders := [(1, [(("domain"), DbValue.str ("a.eth"))]),
                      (2, [(("domain"), DbValue.str ("b.eth"))])],
        sentReminders := [], conversations := [],
        nextReminders := 3, nextSentReminders := 1, nextConversations := 1 }
      [(("domain"), DbValue.str ("c.eth"))]
      [(("domain"), DbValue.str ("a.eth"))] (DbValue.str ("T"))).2.1
     [(("domain"), DbValue.str ("a.eth"))],
   (executeUpdate_spec
      { reminders := [(1, [(("domain"), DbValue.str ("a.eth"))]),
                      (2, [(("domain"), DbValue.str ("b.eth"))])],
        sentReminders := [], conversations := [],
        nextReminders := 3, nextSentReminders := 1, nextConversations := 1 }
      [(("domain"), DbValue.str ("c.eth"))]
      [(("domain"), DbValue.str ("a.eth"))] (DbValue.str ("T"))).2.2.2.2.1
     (2, [(("domain"), DbValue.str ("b.eth"))]) (by decide) (by decide)⟩

end EnsReminder
